import Mathlib

set_option maxRecDepth 10000

/-!
Verification development for the screenshot service in `src/index.js`.

The repository file contains two Express applications:
* a hardened variant (the "strict profile"): middleware `validateUrl` and
  `validateParams`, a `/screenshot` handler with a browser-launch race,
  request interception, two-tier navigation, selector capture and an error
  classifier (lines 1-628);
* an older permissive variant (the "permissive profile"): inline validation,
  a single `page.goto`, and a smaller error classifier (lines 629-999).

Both are embedded below.  Interaction with the outside world (the browser
process, the network, element lookup) is represented by explicit oracle
records (`StrictEnv`, `PermEnv`) whose fields state which external calls
succeed and with which error messages they fail; the control flow around
those calls is translated directly from the source.
-/

deriving instance DecidableEq for Except

/-! ## JavaScript string primitives -/

/-- `listIncludes needle hay` decides whether `needle` occurs contiguously in
`hay`; used to model `String.prototype.includes`. -/
def listIncludes (needle : List Char) : List Char → Bool
  | [] => needle.isEmpty
  | c :: t => needle.isPrefixOf (c :: t) || listIncludes needle t

/-- Model of `s.includes(pat)` from JavaScript. -/
def jsIncludes (s pat : String) : Bool := listIncludes pat.data s.data

/-- ASCII lower-casing of a character, as `String.prototype.toLowerCase`
behaves on the ASCII strings this service manipulates. -/
def lowerChar (c : Char) : Char :=
  if 'A' ≤ c ∧ c ≤ 'Z' then Char.ofNat (c.toNat + 32) else c

/-- Model of `s.toLowerCase()` (ASCII fragment). -/
def lowerStr (s : String) : String := String.mk (s.data.map lowerChar)

/-- Model of `s.startsWith(p)` / an anchored regex prefix match. -/
def strStartsWith (s p : String) : Bool := p.data.isPrefixOf s.data

/-! ## JavaScript `parseInt`

`parseInt(x)` with no radix argument: skip leading whitespace, read an
optional sign, switch to base 16 after a `0x`/`0X` prefix, then read the
longest prefix of digits of the selected base; the result is `NaN` when that
prefix is empty.  `NaN` is modelled as `none`. -/

def isJsSpace (c : Char) : Bool :=
  c == ' ' || c == '\t' || c == '\n' || c == '\r' || c == '\x0b' || c == '\x0c'

def digitVal10 (c : Char) : Option Nat :=
  if '0' ≤ c ∧ c ≤ '9' then some (c.toNat - 48) else none

def digitVal16 (c : Char) : Option Nat :=
  if '0' ≤ c ∧ c ≤ '9' then some (c.toNat - 48)
  else if 'a' ≤ c ∧ c ≤ 'f' then some (c.toNat - 87)
  else if 'A' ≤ c ∧ c ≤ 'F' then some (c.toNat - 55)
  else none

def digitsValue (radix : Nat) (dv : Char → Option Nat) (ds : List Char) : Nat :=
  ds.foldl (fun acc c => acc * radix + ((dv c).getD 0)) 0

/-- `true` when the list starts with the character `c`. -/
def headIs (l : List Char) (c : Char) : Bool :=
  match l with
  | [] => false
  | x :: _ => x == c

def parseIntJS (s : String) : Option Int :=
  let l0 := s.data.dropWhile isJsSpace
  let negative := headIs l0 '-'
  let l1 := if headIs l0 '-' || headIs l0 '+' then l0.tail else l0
  let hex := headIs l1 '0' && (headIs l1.tail 'x' || headIs l1.tail 'X')
  let l2 := if hex then l1.tail.tail else l1
  let dv := if hex then digitVal16 else digitVal10
  let radix : Nat := if hex then 16 else 10
  let ds := l2.takeWhile (fun c => (dv c).isSome)
  if ds.isEmpty then none
  else
    let v : Int := Int.ofNat (digitsValue radix dv ds)
    some (if negative then -v else v)

/-- A JavaScript number that may be `NaN` (`none`). -/
abbrev JSNum := Option Int

/-! ## URL parsing

Model of the WHATWG `new URL(s)` constructor, restricted to the absolute
`scheme:...` / `scheme://host...` shapes this service receives.  The scheme
must start with a letter and be followed by `:`; for URLs with an authority
section the host is what stands after the last `@` and before `:`, `/`, `?`
or `#`, lower-cased as the URL parser does.  Special-scheme URLs written
without `//` and bracketed IPv6 hosts are not modelled (no claim touches
them); a parse failure stands for the constructor throwing `TypeError`. -/

structure UrlObj where
  protocol : String
  hostname : String
deriving DecidableEq

def isSchemeChar (c : Char) : Bool :=
  c.isAlpha || c.isDigit || c = '+' || c = '-' || c = '.'

def hostStop (c : Char) : Bool := c = '/' || c = '?' || c = '#'

def parseURL (s : String) : Option UrlObj :=
  match s.data with
  | [] => none
  | c0 :: _ =>
    if !c0.isAlpha then none
    else
      let scheme := s.data.takeWhile isSchemeChar
      let rest := s.data.dropWhile isSchemeChar
      match rest with
      | ':' :: r =>
        let prot := String.mk (scheme.map lowerChar) ++ ":"
        match r with
        | '/' :: '/' :: afterSlashes =>
          let authority := afterSlashes.takeWhile (fun c => !hostStop c)
          let hostPart := (authority.reverse.takeWhile (fun c => c ≠ '@')).reverse
          let host := hostPart.takeWhile (fun c => c ≠ ':')
          if host.isEmpty then none
          else some ⟨prot, String.mk (host.map lowerChar)⟩
        | _ =>
          if prot == "http:" || prot == "https:" then none
          else some ⟨prot, ""⟩
      | _ => none

/-! ## URL validator, strict profile (src/index.js lines 72-122) -/

/-- Which rule of the strict `validateUrl` middleware rejected the URL.  Each
constructor corresponds to one `throw` site (or the early missing-parameter
return) of the source. -/
inductive UrlErrKind
  | missing
  | malformed
  | disallowedScheme
  | disallowedHost
  | suspiciousPattern
deriving DecidableEq

structure UrlErr where
  kind : UrlErrKind
  message : String
deriving DecidableEq

/-- The regex `/^(10\.|172\.(1[6-9]|2[0-9]|3[0-1])\.|192\.168\.|127\.|169\.254\.|::1$|localhost$)/`
applied to a hostname. -/
def privateHostMatches (h : String) : Bool :=
  strStartsWith h "10." ||
  (List.range' 16 16).any (fun n => strStartsWith h ("172." ++ toString n ++ ".")) ||
  strStartsWith h "192.168." ||
  strStartsWith h "127." ||
  strStartsWith h "169.254." ||
  h == "::1" ||
  h == "localhost"

/-- The four case-insensitive suspicious patterns of the source, each a
literal substring. -/
def suspiciousPatterns : List String := ["file://", "javascript:", "data:", "vbscript:"]

def hasSuspiciousPattern (url : String) : Bool :=
  suspiciousPatterns.any (fun p => jsIncludes (lowerStr url) p)

/-- Strict-profile `validateUrl`: presence, parse, protocol, private-host
guard (production only), then suspicious-pattern scan, in source order. -/
def validateUrlStrict (isProduction : Bool) (url? : Option String) : Except UrlErr String :=
  match url? with
  | none => .error ⟨.missing, "URL parameter is required"⟩
  | some url =>
    match parseURL url with
    | none => .error ⟨.malformed, "Invalid URL"⟩
    | some u =>
      if !(u.protocol == "http:" || u.protocol == "https:") then
        .error ⟨.disallowedScheme, "Only HTTP and HTTPS protocols are supported"⟩
      else if isProduction && privateHostMatches (lowerStr u.hostname) then
        .error ⟨.disallowedHost, "Private and localhost URLs are not allowed"⟩
      else if hasSuspiciousPattern url then
        .error ⟨.suspiciousPattern, "Suspicious URL pattern detected"⟩
      else
        .ok url

/-- Observe only the rejection rule of a strict URL validation outcome. -/
def urlErrKind? : Except UrlErr String → Option UrlErrKind
  | .error e => some e.kind
  | .ok _ => none

/-- Permissive-profile `validateUrl` (lines 654-677): presence, parse and
protocol check only; every failure collapses to one response message. -/
def validateUrlPermissive (url? : Option String) : Except String String :=
  match url? with
  | none => .error "URL parameter is required"
  | some url =>
    match parseURL url with
    | none => .error "Invalid URL format. Please provide a valid HTTP/HTTPS URL."
    | some u =>
      if !(u.protocol == "http:" || u.protocol == "https:") then
        .error "Invalid URL format. Please provide a valid HTTP/HTTPS URL."
      else
        .ok url

/-! ## Parameter validation, strict profile (lines 125-191) -/

/-- Raw query string of a `/screenshot` request: each field is `none` when
the key is absent (`undefined` in Express). -/
structure Query where
  url : Option String
  width : Option String
  height : Option String
  quality : Option String
  delay : Option String
  format : Option String
  fullPage : Option String
  mobile : Option String
  darkMode : Option String
  selector : Option String
deriving DecidableEq

structure ValidatedParams where
  width : Int
  height : Int
  quality : Int
  delay : Int
  format : String
  fullPage : Bool
  mobile : Bool
  darkMode : Bool
deriving DecidableEq

/-- `isNaN(v) || v < lo || v > hi`, the guard of each numeric check. -/
def badBounds (v : JSNum) (lo hi : Int) : Bool :=
  match v with
  | none => true
  | some x => x < lo || x > hi

def validBooleans : List String := ["true", "false"]

def validFormats : List String := ["png", "jpeg", "webp"]

/-- Strict-profile `validateParams`: defaults, `parseInt`, then the checks in
source order (width, height, format, quality, delay, fullPage, mobile,
darkMode); the selector key is never consulted. -/
def validateParamsStrict (q : Query) : Except String ValidatedParams :=
  let widthNum := parseIntJS (q.width.getD "1920")
  let heightNum := parseIntJS (q.height.getD "1080")
  let qualityNum := parseIntJS (q.quality.getD "80")
  let delayNum := parseIntJS (q.delay.getD "0")
  let formatL := lowerStr (q.format.getD "png")
  let fullPageL := lowerStr (q.fullPage.getD "false")
  let mobileL := lowerStr (q.mobile.getD "false")
  let darkModeL := lowerStr (q.darkMode.getD "false")
  if badBounds widthNum 100 1920 then
    .error "Width must be between 100 and 1920 pixels"
  else if badBounds heightNum 100 1080 then
    .error "Height must be between 100 and 1080 pixels"
  else if !(validFormats.contains formatL) then
    .error "Format must be png, jpeg, or webp"
  else if badBounds qualityNum 1 100 then
    .error "Quality must be between 1 and 100"
  else if badBounds delayNum 0 5000 then
    .error "Delay must be between 0 and 5000 milliseconds"
  else if !(validBooleans.contains fullPageL) then
    .error "fullPage must be true or false"
  else if !(validBooleans.contains mobileL) then
    .error "mobile must be true or false"
  else if !(validBooleans.contains darkModeL) then
    .error "darkMode must be true or false"
  else
    .ok { width := widthNum.getD 0, height := heightNum.getD 0,
          quality := qualityNum.getD 0, delay := delayNum.getD 0,
          format := formatL,
          fullPage := fullPageL == "true",
          mobile := mobileL == "true",
          darkMode := darkModeL == "true" }

/-! ## Screenshot options (lines 344-356 and 793-803)

A field holds `none` when the corresponding key is absent from the options
object; the browser API then applies its default (`omitBackground` defaults
to a kept background).  `quality` is `some v` when the key is present with
JavaScript number `v` (`v = none` standing for `NaN`). -/

structure ShotOptions where
  type : String
  fullPage : Bool
  omitBackground : Option Bool
  captureBeyondViewport : Option Bool
  quality : Option JSNum
deriving DecidableEq

/-- Strict-profile options object: `omitBackground` is set to
`format === 'png'` and quality is added for the two lossy formats. -/
def screenshotOptionsStrict (p : ValidatedParams) : ShotOptions :=
  { type := p.format, fullPage := p.fullPage,
    omitBackground := some (p.format == "png"),
    captureBeyondViewport := some p.fullPage,
    quality := if p.format == "jpeg" || p.format == "webp" then some (some p.quality) else none }

/-- Permissive-profile options object: no `omitBackground` key is ever set;
quality is added for the two lossy formats. -/
def screenshotOptionsPerm (format fullPage : String) (qualityNum : JSNum) : ShotOptions :=
  { type := format, fullPage := fullPage == "true",
    omitBackground := none,
    captureBeyondViewport := none,
    quality := if format == "jpeg" || format == "webp" then some qualityNum else none }

/-- Effective background behaviour of an options object: the API omits the
background exactly when the key is present and `true`. -/
def effectiveOmitBackground (o : ShotOptions) : Bool := o.omitBackground.getD false

/-! ## Request interception (lines 287-310) -/

def blockedDomains : List String :=
  ["google-analytics.com", "googletagmanager.com", "facebook.com",
   "doubleclick.net", "googlesyndication.com"]

/-- Decision of the `page.on('request')` handler: `true` means
`request.abort()`, `false` means `request.continue()`. -/
def interceptAborts (resourceType url : String) : Bool :=
  (["font", "media"].contains resourceType) ||
  blockedDomains.any (fun domain => jsIncludes url domain)

/-! ## Error classifiers (lines 402-424 and 835-862) -/

/-- Strict-profile classifier: substring checks in source order, producing
the HTTP status and the `error` field of the JSON body (the raw message is
echoed in the `message` field separately). -/
def classifyStrict (msg : String) : Nat × String :=
  if jsIncludes msg "net::ERR_NAME_NOT_RESOLVED" then
    (400, "Website not found or unreachable")
  else if jsIncludes msg "net::ERR_CONNECTION_REFUSED" then
    (400, "Connection refused by target website")
  else if jsIncludes msg "Navigation timeout" || jsIncludes msg "timeout" then
    (408, "Website took too long to load")
  else if jsIncludes msg "ERR_BLOCKED_BY_CLIENT" then
    (400, "Request blocked by target website")
  else if jsIncludes msg "ERR_TOO_MANY_REDIRECTS" then
    (400, "Too many redirects")
  else if jsIncludes msg "Element" && jsIncludes msg "not found" then
    (400, msg)
  else
    (500, "Failed to capture screenshot")

/-- Permissive-profile classifier (two special cases, then a generic 500). -/
def classifyPerm (msg : String) : Nat × String :=
  if jsIncludes msg "net::ERR_NAME_NOT_RESOLVED" then
    (400, "Website not found or unreachable")
  else if jsIncludes msg "Navigation timeout" then
    (408, "Website took too long to load (30s timeout)")
  else
    (500, "Failed to capture screenshot")

/-! ## Responses and traces -/

/-- What the route hands to Express: either image bytes with the format and
dimension headers, or a JSON error body with its HTTP status.  Dimensions
are JavaScript numbers because the permissive profile can reach the success
path with unparsed (`NaN`) values. -/
inductive Resp
  | image (format : String) (width height : JSNum) (opts : ShotOptions)
  | err (status : Nat) (error : String) (message : String)
deriving DecidableEq

/-- One `page.goto` call: its `waitUntil` conditions and timeout. -/
structure NavAttempt where
  waitUntil : List String
  timeoutMs : Nat
deriving DecidableEq

/-- Resource events of one request.  `launches` counts browser processes
that came into existence, `acquired` counts sessions assigned to the
handler's `browser` variable, the close counters count the cleanup calls of
the `finally` blocks.  `selectorReceived` is the raw query value the handler
destructured; `selectorWaited` is the argument passed to
`page.waitForSelector`, when that call happens. -/
structure Trace where
  launches : Nat
  acquired : Nat
  pageCloses : Nat
  browserCloses : Nat
  interceptionInstalled : Bool
  navAttempts : List NavAttempt
  selectorReceived : Option String
  selectorWaited : Option String
deriving DecidableEq

def emptyTrace : Trace :=
  { launches := 0, acquired := 0, pageCloses := 0, browserCloses := 0,
    interceptionInstalled := false, navAttempts := [],
    selectorReceived := none, selectorWaited := none }

/-! ## Strict-profile handler (lines 240-450)

External behaviour is an oracle.  `Promise.race([browserPromise,
timeoutPromise])` does not cancel the losing promise: when the 10s timer
rejects first, `getBrowser()` keeps running in the background and a browser
process it later produces is owned by nobody (the handler's `browser`
variable was never assigned, so the `finally` block closes nothing). -/

inductive LaunchResult
  /-- `getBrowser()` resolves before the 10s timer: the race yields the
  browser and the handler owns it. -/
  | ok
  /-- `getBrowser()` rejects before the 10s timer; `puppeteer.launch`
  cleans up its own child process on failure, so no process exists. -/
  | failBefore
  /-- the 10s timer fires first and the underlying launch also fails (or
  never completes): the race rejects and no process exists. -/
  | timeoutNoProcess
  /-- the 10s timer fires first but the underlying launch later resolves:
  the race rejects, yet a live browser process exists in the background. -/
  | timeoutThenOk
deriving DecidableEq

structure StrictEnv where
  launch : LaunchResult
  launchErrMsg : String
  newPageOk : Bool
  newPageErrMsg : String
  viewportOk : Bool
  viewportErrMsg : String
  navPrimaryOk : Bool
  navFallbackOk : Bool
  navFallbackErrMsg : String
  /-- `page.waitForSelector(selector, 5000)` resolves within its budget. -/
  selectorAppears : Bool
  /-- error message thrown by `page.waitForSelector` when it fails. -/
  waitSelectorErrMsg : String
  /-- `page.$(selector)` returns a handle after the wait succeeded. -/
  elemAfterWait : Bool
  elemShotOk : Bool
  elemShotErrMsg : String
  pageShotOk : Bool
  pageShotErrMsg : String

/-- Build the catch-block response of the strict handler for a raw error
message: the classifier picks status and `error`, the raw message is echoed. -/
def mkErrStrict (msg : String) : Resp :=
  .err (classifyStrict msg).1 (classifyStrict msg).2 msg

/-- The wrapper applied by the selector catch block (line 370). -/
def wrapSelectorErr (selector inner : String) : String :=
  "Failed to find or screenshot element \"" ++ selector ++ "\": " ++ inner

/-- The message of the explicit throw at line 366 / line 811. -/
def elemNotFoundMsg (selector : String) : String :=
  "Element with selector \"" ++ selector ++ "\" not found"

def strictPrimaryNav : NavAttempt := ⟨["domcontentloaded", "networkidle2"], 15000⟩

def strictFallbackNav : NavAttempt := ⟨["domcontentloaded"], 10000⟩

/-- Capture stage of the strict handler, entered after navigation
succeeded.  `nav` records the goto calls made so far.  The cleanup `finally`
closes the page then the browser (close failures are caught and only
logged, so the close calls are modelled as succeeding). -/
def strictCapture (env : StrictEnv) (p : ValidatedParams) (selector : Option String)
    (nav : List NavAttempt) : Resp × Trace :=
  let opts := screenshotOptionsStrict p
  let base : Trace :=
    { launches := 1, acquired := 1, pageCloses := 1, browserCloses := 1,
      interceptionInstalled := true, navAttempts := nav,
      selectorReceived := selector, selectorWaited := none }
  let selTruthy : Bool := match selector with
    | some s => s != ""
    | none => false
  if selTruthy then
    let s := match selector with
      | some s => s
      | none => ""
    let tr := { base with selectorWaited := some s }
    if !env.selectorAppears then
      (mkErrStrict (wrapSelectorErr s env.waitSelectorErrMsg), tr)
    else if !env.elemAfterWait then
      (mkErrStrict (wrapSelectorErr s (elemNotFoundMsg s)), tr)
    else if !env.elemShotOk then
      (mkErrStrict (wrapSelectorErr s env.elemShotErrMsg), tr)
    else
      (.image p.format (some p.width) (some p.height) opts, tr)
  else
    if env.pageShotOk then
      (.image p.format (some p.width) (some p.height) opts, base)
    else
      (mkErrStrict env.pageShotErrMsg, base)

/-- Strict-profile `/screenshot` handler body, after both validation
middlewares succeeded: launch race, page setup, interception, two-tier
navigation, capture, classification and `finally` cleanup. -/
def strictHandler (env : StrictEnv) (p : ValidatedParams) (selector : Option String) :
    Resp × Trace :=
  match env.launch with
  | .failBefore =>
    (mkErrStrict env.launchErrMsg,
     { emptyTrace with selectorReceived := selector })
  | .timeoutNoProcess =>
    (mkErrStrict "Browser launch timeout",
     { emptyTrace with selectorReceived := selector })
  | .timeoutThenOk =>
    (mkErrStrict "Browser launch timeout",
     { emptyTrace with launches := 1, selectorReceived := selector })
  | .ok =>
    if !env.newPageOk then
      (mkErrStrict env.newPageErrMsg,
       { launches := 1, acquired := 1, pageCloses := 0, browserCloses := 1,
         interceptionInstalled := false, navAttempts := [],
         selectorReceived := selector, selectorWaited := none })
    else if !env.viewportOk then
      (mkErrStrict env.viewportErrMsg,
       { launches := 1, acquired := 1, pageCloses := 1, browserCloses := 1,
         interceptionInstalled := false, navAttempts := [],
         selectorReceived := selector, selectorWaited := none })
    else
      -- user agent, dark-mode emulation, interception installation, the
      -- settle delay and the lazy-load wait are externally infallible
      if env.navPrimaryOk then
        strictCapture env p selector [strictPrimaryNav]
      else if env.navFallbackOk then
        strictCapture env p selector [strictPrimaryNav, strictFallbackNav]
      else
        (mkErrStrict env.navFallbackErrMsg,
         { launches := 1, acquired := 1, pageCloses := 1, browserCloses := 1,
           interceptionInstalled := true,
           navAttempts := [strictPrimaryNav, strictFallbackNav],
           selectorReceived := selector, selectorWaited := none })

/-- Response of the strict `validateUrl` middleware on failure. -/
def urlErrResp (e : UrlErr) : Resp :=
  match e.kind with
  | .missing => .err 400 "URL parameter is required" ""
  | _ => .err 400 "Invalid URL" e.message

/-- The whole strict `/screenshot` route: `validateUrl`, `validateParams`,
then the handler.  A middleware rejection means the handler never runs, so
the trace stays empty. -/
def strictScreenshotRoute (isProduction : Bool) (q : Query) (env : StrictEnv) :
    Resp × Trace :=
  match validateUrlStrict isProduction q.url with
  | .error e => (urlErrResp e, emptyTrace)
  | .ok _ =>
    match validateParamsStrict q with
    | .error m => (.err 400 "Invalid parameters" m, emptyTrace)
    | .ok p => strictHandler env p q.selector

/-! ## Permissive-profile route (lines 715-869)

Validation is inline in the handler, before `getBrowser()` is awaited.  The
numeric checks have no `isNaN` guard: a comparison against `NaN` is false in
JavaScript, so an unparsable value passes every bound check.  There is no
launch race, no request interception, a single `page.goto` with
`waitUntil: 'networkidle2'` and a 30s timeout, no `waitForSelector` before
`page.$`, and the `finally` block closes only the browser. -/

/-- `v < b` on JavaScript numbers: false when `v` is `NaN`. -/
def jsLt (v : JSNum) (b : Int) : Bool :=
  match v with
  | none => false
  | some x => x < b

/-- `v > b` on JavaScript numbers: false when `v` is `NaN`. -/
def jsGt (v : JSNum) (b : Int) : Bool :=
  match v with
  | none => false
  | some x => x > b

/-- The inline early-return checks of the permissive handler, in source
order; `some r` is the 400 response of the first failing check.  The
selector key is never consulted. -/
def permissiveParamError (q : Query) : Option Resp :=
  let widthNum := parseIntJS (q.width.getD "1920")
  let heightNum := parseIntJS (q.height.getD "1080")
  let qualityNum := parseIntJS (q.quality.getD "80")
  let delayNum := parseIntJS (q.delay.getD "0")
  let format := q.format.getD "png"
  if jsLt widthNum 100 || jsGt widthNum 3840 then
    some (.err 400 "Width must be between 100 and 3840 pixels" "")
  else if jsLt heightNum 100 || jsGt heightNum 2160 then
    some (.err 400 "Height must be between 100 and 2160 pixels" "")
  else if !(validFormats.contains format) then
    some (.err 400 "Format must be png, jpeg, or webp" "")
  else if jsLt qualityNum 1 || jsGt qualityNum 100 then
    some (.err 400 "Quality must be between 1 and 100" "")
  else if jsLt delayNum 0 || jsGt delayNum 10000 then
    some (.err 400 "Delay must be between 0 and 10000 milliseconds" "")
  else
    none

structure PermEnv where
  launchOk : Bool
  launchErrMsg : String
  viewportOk : Bool
  viewportErrMsg : String
  navOk : Bool
  navErrMsg : String
  /-- `page.$(selector)` returns a handle (no wait happens first). -/
  elemFound : Bool
  elemShotOk : Bool
  elemShotErrMsg : String
  pageShotOk : Bool
  pageShotErrMsg : String

/-- Catch-block response of the permissive handler. -/
def mkErrPerm (msg : String) : Resp :=
  .err (classifyPerm msg).1 (classifyPerm msg).2 msg

def permNav : NavAttempt := ⟨["networkidle2"], 30000⟩

/-- Permissive-profile handler body after the URL middleware and the inline
checks passed.  The `finally` block closes the browser when it was
assigned; the page is never closed separately. -/
def permissiveHandler (env : PermEnv) (q : Query) : Resp × Trace :=
  let widthNum := parseIntJS (q.width.getD "1920")
  let heightNum := parseIntJS (q.height.getD "1080")
  let qualityNum := parseIntJS (q.quality.getD "80")
  let format := q.format.getD "png"
  if !env.launchOk then
    (mkErrPerm env.launchErrMsg,
     { emptyTrace with selectorReceived := q.selector })
  else if !env.viewportOk then
    (mkErrPerm env.viewportErrMsg,
     { launches := 1, acquired := 1, pageCloses := 0, browserCloses := 1,
       interceptionInstalled := false, navAttempts := [],
       selectorReceived := q.selector, selectorWaited := none })
  else if !env.navOk then
    (mkErrPerm env.navErrMsg,
     { launches := 1, acquired := 1, pageCloses := 0, browserCloses := 1,
       interceptionInstalled := false, navAttempts := [permNav],
       selectorReceived := q.selector, selectorWaited := none })
  else
    let opts := screenshotOptionsPerm format (q.fullPage.getD "false") qualityNum
    let base : Trace :=
      { launches := 1, acquired := 1, pageCloses := 0, browserCloses := 1,
        interceptionInstalled := false, navAttempts := [permNav],
        selectorReceived := q.selector, selectorWaited := none }
    let selTruthy : Bool := match q.selector with
      | some s => s != ""
      | none => false
    if selTruthy then
      let s := match q.selector with
        | some s => s
        | none => ""
      if !env.elemFound then
        (mkErrPerm (elemNotFoundMsg s), base)
      else if !env.elemShotOk then
        (mkErrPerm env.elemShotErrMsg, base)
      else
        (.image format widthNum heightNum opts, base)
    else
      if env.pageShotOk then
        (.image format widthNum heightNum opts, base)
      else
        (mkErrPerm env.pageShotErrMsg, base)

/-- The whole permissive `/screenshot` route: URL middleware, inline
parameter checks, then the handler.  An inline check failing returns before
`getBrowser()`, so the trace stays empty. -/
def permissiveScreenshotRoute (q : Query) (env : PermEnv) : Resp × Trace :=
  match validateUrlPermissive q.url with
  | .error e => (.err 400 e "", emptyTrace)
  | .ok _ =>
    match permissiveParamError q with
    | some r => (r, emptyTrace)
    | none => permissiveHandler env q

/-! ## Concrete fixtures used by the closed theorems -/

/-- A request for `https://example.com` with every optional key absent. -/
def goodQuery : Query :=
  { url := some "https://example.com", width := none, height := none,
    quality := none, delay := none, format := none, fullPage := none,
    mobile := none, darkMode := none, selector := none }

/-- The parameters the strict validator derives from `goodQuery`. -/
def goodParams : ValidatedParams :=
  { width := 1920, height := 1080, quality := 80, delay := 0,
    format := "png", fullPage := false, mobile := false, darkMode := false }

/-- Strict-profile environment where every external call succeeds. -/
def okStrictEnv : StrictEnv :=
  { launch := .ok, launchErrMsg := "spawn chrome ENOENT",
    newPageOk := true, newPageErrMsg := "Target closed",
    viewportOk := true, viewportErrMsg := "Protocol error",
    navPrimaryOk := true, navFallbackOk := true,
    navFallbackErrMsg := "Navigation timeout of 10000 ms exceeded",
    selectorAppears := true,
    waitSelectorErrMsg := "Waiting for selector `.does-not-exist` failed: Waiting failed: 5000ms exceeded",
    elemAfterWait := true, elemShotOk := true, elemShotErrMsg := "shot failed",
    pageShotOk := true, pageShotErrMsg := "shot failed" }

/-- Permissive-profile environment where every external call succeeds. -/
def okPermEnv : PermEnv :=
  { launchOk := true, launchErrMsg := "spawn chrome ENOENT",
    viewportOk := true, viewportErrMsg := "Protocol error",
    navOk := true, navErrMsg := "Navigation timeout of 30000 ms exceeded",
    elemFound := true, elemShotOk := true, elemShotErrMsg := "shot failed",
    pageShotOk := true, pageShotErrMsg := "shot failed" }

/-! ## Helper lemmas -/

theorem digitVal10_isSome_iff {c : Char} :
    (digitVal10 c).isSome = true ↔ ('0' ≤ c ∧ c ≤ '9') := by
  unfold digitVal10
  split <;> simp_all

theorem digit_not_special {c : Char} (h : (digitVal10 c).isSome = true) :
    isJsSpace c = false ∧ (c == '-') = false ∧ (c == '+') = false ∧
    (c == 'x') = false ∧ (c == 'X') = false := by
  have hb := digitVal10_isSome_iff.mp h
  obtain ⟨h0, h9⟩ := hb
  refine ⟨?_, ?_, ?_, ?_, ?_⟩
  · unfold isJsSpace
    have : c ≠ ' ' := by rintro rfl; exact absurd h0 (by decide)
    have : c ≠ '\t' := by rintro rfl; exact absurd h0 (by decide)
    have : c ≠ '\n' := by rintro rfl; exact absurd h0 (by decide)
    have : c ≠ '\r' := by rintro rfl; exact absurd h0 (by decide)
    have : c ≠ '\x0b' := by rintro rfl; exact absurd h0 (by decide)
    have : c ≠ '\x0c' := by rintro rfl; exact absurd h0 (by decide)
    simp_all
  · have : c ≠ '-' := by rintro rfl; exact absurd h0 (by decide)
    simp_all
  · have : c ≠ '+' := by rintro rfl; exact absurd h0 (by decide)
    simp_all
  · have : c ≠ 'x' := by rintro rfl; exact absurd h9 (by decide)
    simp_all
  · have : c ≠ 'X' := by rintro rfl; exact absurd h9 (by decide)
    simp_all

theorem dropWhile_head_false {p : Char → Bool} {l : List Char}
    (h : ∀ c, l.head? = some c → p c = false) : l.dropWhile p = l := by
  cases l with
  | nil => rfl
  | cons c t => simp [List.dropWhile, h c rfl]

theorem takeWhile_all_append {p : Char → Bool} {l r : List Char}
    (hl : ∀ c ∈ l, p c = true) (hr : ∀ c, r.head? = some c → p c = false) :
    (l ++ r).takeWhile p = l := by
  induction l with
  | nil =>
    cases r with
    | nil => rfl
    | cons c t => simp [List.takeWhile, hr c rfl]
  | cons c t ih =>
    simp only [List.cons_append, List.takeWhile]
    rw [hl c (by simp)]
    simp [ih (fun x hx => hl x (by simp [hx]))]

/-! ## Further fixtures -/

/-- Launch race lost to the 10s timer while the launch itself later
succeeds (a slow cold start). -/
def leakStrictEnv : StrictEnv := { okStrictEnv with launch := .timeoutThenOk }

/-- The request of the specification example: a selector that matches no
element on an otherwise reachable page. -/
def selQuery : Query := { goodQuery with selector := some ".does-not-exist" }

def permEnvNoElem : PermEnv := { okPermEnv with elemFound := false }

def strictEnvSelectorTimeout : StrictEnv := { okStrictEnv with selectorAppears := false }

def badWidthQuery : Query := { goodQuery with width := some "abc" }

/-- With a `NaN` width the viewport call is handed `NaN` and the protocol
rejects it. -/
def permEnvNaNViewport : PermEnv :=
  { okPermEnv with
    viewportOk := false
    viewportErrMsg := "Protocol error (Emulation.setDeviceMetricsOverride): Invalid parameters" }

def permEnvNavFail : PermEnv :=
  { okPermEnv with
    navOk := false
    navErrMsg := "net::ERR_CONNECTION_REFUSED at https://example.com" }

/-! ## Claims -/

/-- Claim C1, evaluation at the failing input: for a fully validated
request whose browser launch loses the 10s race but completes afterwards,
a browser process comes into existence (`launches = 1`), the handler never
owns it (`acquired = 0`), and the cleanup block closes nothing
(`browserCloses = 0`) — the process is leaked, contradicting the guarantee
that a launch-race timeout leaks no browser process.  The response itself
is the classified 408 for the `Browser launch timeout` message. -/
theorem C1_launch_race_leak :
    (strictScreenshotRoute true goodQuery leakStrictEnv).2.launches = 1 ∧
    (strictScreenshotRoute true goodQuery leakStrictEnv).2.acquired = 0 ∧
    (strictScreenshotRoute true goodQuery leakStrictEnv).2.browserCloses = 0 ∧
    (strictScreenshotRoute true goodQuery leakStrictEnv).1 =
      .err 408 "Website took too long to load" "Browser launch timeout" := by
  decide

/-- Claim C2, counterexample: a selector that never matches on a reachable
page does not produce a 400-class ElementNotFound response.  In the
permissive profile `page.$` returns no handle, the thrown
`Element with selector ... not found` message matches no classifier branch
and the response is a 500.  In the strict profile the common path is
`page.waitForSelector` timing out; its message, wrapped by the lowercase
`Failed to find or screenshot element ...` prefix, contains neither
`Element` together with `not found` nor `timeout`, so the response is
also a 500. -/
theorem C2_counterexample :
    (permissiveScreenshotRoute selQuery permEnvNoElem).1 =
      .err 500 "Failed to capture screenshot"
        "Element with selector \".does-not-exist\" not found" ∧
    (permissiveScreenshotRoute selQuery permEnvNoElem).2.navAttempts = [permNav] ∧
    (strictScreenshotRoute true selQuery strictEnvSelectorTimeout).1 =
      .err 500 "Failed to capture screenshot"
        "Failed to find or screenshot element \".does-not-exist\": Waiting for selector `.does-not-exist` failed: Waiting failed: 5000ms exceeded" := by
  decide

/-- Claim C4: the strict (hardened, production) profile rejects
`http://169.254.169.254/` through the private-host guard with the
`Invalid URL` / `Private and localhost URLs are not allowed` failure, and
the permissive profile accepts the same URL. -/
theorem C4_private_ip_profiles :
    validateUrlStrict true (some "http://169.254.169.254/") =
      .error ⟨.disallowedHost, "Private and localhost URLs are not allowed"⟩ ∧
    validateUrlPermissive (some "http://169.254.169.254/") =
      .ok "http://169.254.169.254/" := by
  decide

/-- Claim C5, counterexample: `javascript:alert(1)` is rejected, but not
with the suspicious-pattern subtype.  The protocol check runs first and
throws `Only HTTP and HTTPS protocols are supported`, so the rejection rule
is the disallowed-scheme one in both strict profiles. -/
theorem C5_counterexample :
    urlErrKind? (validateUrlStrict true (some "javascript:alert(1)")) ≠
      some UrlErrKind.suspiciousPattern ∧
    urlErrKind? (validateUrlStrict false (some "javascript:alert(1)")) ≠
      some UrlErrKind.suspiciousPattern ∧
    validateUrlStrict true (some "javascript:alert(1)") =
      .error ⟨.disallowedScheme, "Only HTTP and HTTPS protocols are supported"⟩ := by
  decide

/-- Claim C5 (amended): `javascript:alert(1)` is rejected with an
`InvalidURL` failure in every profile, but by the protocol
(disallowed-scheme) check, which precedes the suspicious-pattern scan; the
suspicious-pattern subtype arises only for URLs that pass the earlier
checks, such as an http URL embedding a `javascript:` token. -/
theorem C5_amended_javascript_url :
    validateUrlStrict true (some "javascript:alert(1)") =
      .error ⟨.disallowedScheme, "Only HTTP and HTTPS protocols are supported"⟩ ∧
    validateUrlStrict false (some "javascript:alert(1)") =
      .error ⟨.disallowedScheme, "Only HTTP and HTTPS protocols are supported"⟩ ∧
    validateUrlPermissive (some "javascript:alert(1)") =
      .error "Invalid URL format. Please provide a valid HTTP/HTTPS URL." ∧
    validateUrlStrict true (some "http://example.com/javascript:x") =
      .error ⟨.suspiciousPattern, "Suspicious URL pattern detected"⟩ := by
  decide

/-- Claim C7, counterexample: a primary document request whose URL contains
a deny-listed domain is aborted by the interception handler, contradicting
the clause that the primary document request is never aborted. -/
theorem C7_counterexample :
    interceptAborts "document" "https://www.facebook.com/" = true := by
  decide

/-- Claim C7 (amended): the interception handler aborts exactly the
requests whose resource type is font or media or whose URL contains one of
the five deny-listed domains — including a primary document request to a
deny-listed domain; a document request is aborted precisely when its URL
contains such a domain. -/
theorem C7_amended_interception : ∀ resourceType url : String,
    (interceptAborts resourceType url = true ↔
      (resourceType = "font" ∨ resourceType = "media" ∨
        ∃ d ∈ blockedDomains, jsIncludes url d = true)) ∧
    interceptAborts "document" url = blockedDomains.any (fun d => jsIncludes url d) := by
  intro resourceType url
  constructor
  · simp [interceptAborts, List.any_eq_true]
    constructor
    · rintro (h | h)
      · rcases h with h | h
        · exact Or.inl h
        · exact Or.inr (Or.inl h)
      · exact Or.inr (Or.inr h)
    · rintro (h | h | h)
      · exact Or.inl (Or.inl h)
      · exact Or.inl (Or.inr h)
      · exact Or.inr h
  · have hdoc : (["font", "media"].contains "document") = false := by decide
    simp [interceptAborts, hdoc]

/-- Claim C8, counterexample: a successful permissive-profile capture in
the lossless png format does not omit the background — the permissive
options object never sets `omitBackground`, so the API default (keep the
background) applies even for png. -/
theorem C8_counterexample :
    (permissiveScreenshotRoute goodQuery okPermEnv).1 =
      .image "png" (some 1920) (some 1080)
        { type := "png", fullPage := false, omitBackground := none,
          captureBeyondViewport := none, quality := none } ∧
    effectiveOmitBackground (screenshotOptionsPerm "png" "false" (some 80)) = false := by
  decide

/-- Claim C8 (amended): in the strict profile the options omit the
background exactly when the requested format is png and carry the requested
quality exactly when the format is jpeg or webp; in the permissive profile
quality behaves the same way but the background is never omitted, the
`omitBackground` key being absent for every format. -/
theorem C8_amended_format_options :
    ∀ (p : ValidatedParams) (format fullPage : String) (qualityNum : JSNum),
    (effectiveOmitBackground (screenshotOptionsStrict p) = true ↔ p.format = "png") ∧
    ((screenshotOptionsStrict p).quality = some (some p.quality) ↔
      (p.format = "jpeg" ∨ p.format = "webp")) ∧
    (screenshotOptionsPerm format fullPage qualityNum).omitBackground = none ∧
    effectiveOmitBackground (screenshotOptionsPerm format fullPage qualityNum) = false ∧
    ((screenshotOptionsPerm format fullPage qualityNum).quality = some qualityNum ↔
      (format = "jpeg" ∨ format = "webp")) := by
  intro p format fullPage qualityNum
  refine ⟨?_, ?_, rfl, rfl, ?_⟩
  · simp [screenshotOptionsStrict, effectiveOmitBackground]
  · unfold screenshotOptionsStrict
    split <;> rename_i h <;> simp_all
  · unfold screenshotOptionsPerm
    split <;> rename_i h <;> simp_all

theorem string_mk_data (l : List Char) : (String.mk l).data = l := rfl

theorem takeWhile_all {p : Char → Bool} {l : List Char}
    (hl : ∀ c ∈ l, p c = true) : l.takeWhile p = l := by
  induction l with
  | nil => rfl
  | cons c t ih =>
    simp only [List.takeWhile]
    rw [hl c (by simp)]
    simp [ih (fun x hx => hl x (by simp [hx]))]

/-- Evaluation of `parseIntJS` on a string whose first character is a
decimal digit and which does not start with a hex prefix: no whitespace is
skipped, no sign is read, and the value is the decimal reading of the
longest digit prefix. -/
theorem parseIntJS_of_digit_head (d : Char) (t : List Char)
    (hd : (digitVal10 d).isSome = true)
    (hhex : (headIs (d :: t) '0' && (headIs t 'x' || headIs t 'X')) = false) :
    parseIntJS (String.mk (d :: t)) =
      some (Int.ofNat (digitsValue 10 digitVal10
        ((d :: t).takeWhile (fun c => (digitVal10 c).isSome)))) := by
  obtain ⟨hsp, hminus, hplus, hx, hX⟩ := digit_not_special hd
  have hdrop : (d :: t).dropWhile isJsSpace = d :: t := by
    apply dropWhile_head_false
    intro c hc
    simp only [List.head?_cons, Option.some.injEq] at hc
    subst hc
    exact hsp
  have hneg : headIs (d :: t) '-' = false := by simp [headIs, hminus]
  have hpos : headIs (d :: t) '+' = false := by simp [headIs, hplus]
  have hne : ((d :: t).takeWhile (fun c => (digitVal10 c).isSome)).isEmpty = false := by
    simp [List.takeWhile, hd]
  by_cases hd0 : d = '0'
  · subst hd0
    have hB : (headIs t 'x' || headIs t 'X') = false := by
      simpa [headIs] using hhex
    have hBx : headIs t 'x' = false := by
      cases hx2 : headIs t 'x' <;> simp_all
    have hBX : headIs t 'X' = false := by
      cases hx2 : headIs t 'X' <;> simp_all
    have h00 : headIs ('0' :: t) '0' = true := by simp [headIs]
    simp [parseIntJS, string_mk_data, hdrop, hneg, hpos, h00, hBx, hBX, hne]
  · have hA : headIs (d :: t) '0' = false := by simp [headIs, hd0]
    simp [parseIntJS, string_mk_data, hdrop, hneg, hpos, hA, hne]

/-- The head of the list, if any, is not a decimal digit. -/
def headNotDigit (l : List Char) : Bool :=
  match l with
  | [] => true
  | c :: _ => !(digitVal10 c).isSome

/-- The head of the list, if any, is not a hex marker `x`/`X`. -/
def headNotHexMark (l : List Char) : Bool :=
  match l with
  | [] => true
  | c :: _ => !(c == 'x') && !(c == 'X')

/-- Appending text that does not start with a digit (nor, after a bare `0`,
with a hex marker) to a nonempty digit string does not change what
`parseIntJS` reads: the junk is truncated away. -/
theorem parseIntJS_append_junk (ds rest : List Char)
    (hne : ds ≠ [])
    (hall : ds.all (fun c => (digitVal10 c).isSome) = true)
    (hrest : headNotDigit rest = true)
    (hhexm : ds = ['0'] → headNotHexMark rest = true) :
    parseIntJS (String.mk (ds ++ rest)) = parseIntJS (String.mk ds) := by
  have hds : ∀ c ∈ ds, (digitVal10 c).isSome = true := by
    intro c hc
    exact (List.all_eq_true.mp hall) c hc
  have hrest2 : ∀ c, rest.head? = some c → (digitVal10 c).isSome = false := by
    intro c hc
    cases rest with
    | nil => simp at hc
    | cons c0 t0 =>
      simp only [List.head?_cons, Option.some.injEq] at hc
      subst hc
      simpa [headNotDigit] using hrest
  obtain ⟨d, ds', rfl⟩ := List.exists_cons_of_ne_nil hne
  have hd : (digitVal10 d).isSome = true := hds d (by simp)
  have hhexL : (headIs (d :: (ds' ++ rest)) '0' &&
      (headIs (ds' ++ rest) 'x' || headIs (ds' ++ rest) 'X')) = false := by
    by_cases hd0 : d = '0'
    · subst hd0
      cases ds' with
      | cons c2 t2 =>
        have hc2 := digit_not_special (hds c2 (by simp))
        simp [headIs, hc2.2.2.2.1, hc2.2.2.2.2]
      | nil =>
        cases rest with
        | nil => simp [headIs]
        | cons c t =>
          have h := hhexm rfl
          simp only [headNotHexMark, Bool.and_eq_true, Bool.not_eq_true'] at h
          simp [headIs, h.1, h.2]
    · simp [headIs, hd0]
  have hhexR : (headIs (d :: ds') '0' && (headIs ds' 'x' || headIs ds' 'X')) = false := by
    by_cases hd0 : d = '0'
    · subst hd0
      cases ds' with
      | cons c2 t2 =>
        have hc2 := digit_not_special (hds c2 (by simp))
        simp [headIs, hc2.2.2.2.1, hc2.2.2.2.2]
      | nil => simp [headIs]
    · simp [headIs, hd0]
  have e1 : (d :: ds') ++ rest = d :: (ds' ++ rest) := rfl
  rw [e1, parseIntJS_of_digit_head d (ds' ++ rest) hd hhexL,
      parseIntJS_of_digit_head d ds' hd hhexR]
  have e2 : List.takeWhile (fun c => (digitVal10 c).isSome) (d :: (ds' ++ rest)) = d :: ds' := by
    have e0 : d :: (ds' ++ rest) = (d :: ds') ++ rest := rfl
    rw [e0]
    exact takeWhile_all_append hds hrest2
  have e3 : List.takeWhile (fun c => (digitVal10 c).isSome) (d :: ds') = d :: ds' :=
    takeWhile_all hds
  rw [e2, e3]

/-- `validateParamsStrict` reads the four numeric fields only through
`parseIntJS` and the remaining fields verbatim. -/
theorem validateParamsStrict_parse_congr (q1 q2 : Query)
    (hw : parseIntJS (q1.width.getD "1920") = parseIntJS (q2.width.getD "1920"))
    (hh : parseIntJS (q1.height.getD "1080") = parseIntJS (q2.height.getD "1080"))
    (hq : parseIntJS (q1.quality.getD "80") = parseIntJS (q2.quality.getD "80"))
    (hd : parseIntJS (q1.delay.getD "0") = parseIntJS (q2.delay.getD "0"))
    (hf : q1.format = q2.format) (hfp : q1.fullPage = q2.fullPage)
    (hm : q1.mobile = q2.mobile) (hdm : q1.darkMode = q2.darkMode) :
    validateParamsStrict q1 = validateParamsStrict q2 := by
  unfold validateParamsStrict
  rw [hw, hh, hq, hd, hf, hfp, hm, hdm]

/-- The permissive inline checks read the numeric fields only through
`parseIntJS` and the format verbatim. -/
theorem permissiveParamError_parse_congr (q1 q2 : Query)
    (hw : parseIntJS (q1.width.getD "1920") = parseIntJS (q2.width.getD "1920"))
    (hh : parseIntJS (q1.height.getD "1080") = parseIntJS (q2.height.getD "1080"))
    (hq : parseIntJS (q1.quality.getD "80") = parseIntJS (q2.quality.getD "80"))
    (hd : parseIntJS (q1.delay.getD "0") = parseIntJS (q2.delay.getD "0"))
    (hf : q1.format = q2.format) :
    permissiveParamError q1 = permissiveParamError q2 := by
  unfold permissiveParamError
  rw [hw, hh, hq, hd, hf]

/-! Route-level reduction lemmas. -/

theorem strictRoute_validated {prod : Bool} {q : Query} {u : String}
    {p : ValidatedParams} (env : StrictEnv)
    (hu : validateUrlStrict prod q.url = .ok u)
    (hp : validateParamsStrict q = .ok p) :
    strictScreenshotRoute prod q env = strictHandler env p q.selector := by
  unfold strictScreenshotRoute
  rw [hu, hp]

theorem strictRoute_param_error {prod : Bool} {q : Query} {u : String}
    {msg : String} (env : StrictEnv)
    (hu : validateUrlStrict prod q.url = .ok u)
    (hp : validateParamsStrict q = .error msg) :
    strictScreenshotRoute prod q env = (.err 400 "Invalid parameters" msg, emptyTrace) := by
  unfold strictScreenshotRoute
  rw [hu, hp]

theorem permissiveRoute_validated {q : Query} {u : String} (env : PermEnv)
    (hu : validateUrlPermissive q.url = .ok u)
    (hperr : permissiveParamError q = none) :
    permissiveScreenshotRoute q env = permissiveHandler env q := by
  unfold permissiveScreenshotRoute
  rw [hu, hperr]

theorem permissiveRoute_param_error {q : Query} {u : String} {r : Resp} (env : PermEnv)
    (hu : validateUrlPermissive q.url = .ok u)
    (hp : permissiveParamError q = some r) :
    permissiveScreenshotRoute q env = (r, emptyTrace) := by
  unfold permissiveScreenshotRoute
  rw [hu, hp]

/-! First-failing-check lemmas for the two validators. -/

theorem validateParamsStrict_width_error {q : Query}
    (hw : badBounds (parseIntJS (q.width.getD "1920")) 100 1920 = true) :
    validateParamsStrict q = .error "Width must be between 100 and 1920 pixels" := by
  unfold validateParamsStrict
  simp [hw]

theorem validateParamsStrict_height_error {q : Query}
    (hw : badBounds (parseIntJS (q.width.getD "1920")) 100 1920 = false)
    (hh : badBounds (parseIntJS (q.height.getD "1080")) 100 1080 = true) :
    validateParamsStrict q = .error "Height must be between 100 and 1080 pixels" := by
  unfold validateParamsStrict
  simp [hw, hh]

theorem validateParamsStrict_quality_error {q : Query}
    (hw : badBounds (parseIntJS (q.width.getD "1920")) 100 1920 = false)
    (hh : badBounds (parseIntJS (q.height.getD "1080")) 100 1080 = false)
    (hf : validFormats.contains (lowerStr (q.format.getD "png")) = true)
    (hq : badBounds (parseIntJS (q.quality.getD "80")) 1 100 = true) :
    validateParamsStrict q = .error "Quality must be between 1 and 100" := by
  have hf2 : lowerStr (q.format.getD "png") ∈ validFormats := by simpa using hf
  unfold validateParamsStrict
  simp [hw, hh, hf2, hq]

theorem validateParamsStrict_delay_error {q : Query}
    (hw : badBounds (parseIntJS (q.width.getD "1920")) 100 1920 = false)
    (hh : badBounds (parseIntJS (q.height.getD "1080")) 100 1080 = false)
    (hf : validFormats.contains (lowerStr (q.format.getD "png")) = true)
    (hq : badBounds (parseIntJS (q.quality.getD "80")) 1 100 = false)
    (hd : badBounds (parseIntJS (q.delay.getD "0")) 0 5000 = true) :
    validateParamsStrict q = .error "Delay must be between 0 and 5000 milliseconds" := by
  have hf2 : lowerStr (q.format.getD "png") ∈ validFormats := by simpa using hf
  unfold validateParamsStrict
  simp [hw, hh, hf2, hq, hd]

theorem permissiveParamError_width {q : Query}
    (hw : (jsLt (parseIntJS (q.width.getD "1920")) 100 ||
           jsGt (parseIntJS (q.width.getD "1920")) 3840) = true) :
    permissiveParamError q = some (.err 400 "Width must be between 100 and 3840 pixels" "") := by
  unfold permissiveParamError
  simp [hw]

/-! Handler-level reduction lemmas. -/

theorem strictHandler_nav_primary (env : StrictEnv) (p : ValidatedParams) (sel : Option String)
    (hl : env.launch = .ok) (hn : env.newPageOk = true) (hv : env.viewportOk = true)
    (h1 : env.navPrimaryOk = true) :
    strictHandler env p sel = strictCapture env p sel [strictPrimaryNav] := by
  unfold strictHandler
  rw [hl]
  simp [hn, hv, h1]

theorem strictHandler_nav_fallback (env : StrictEnv) (p : ValidatedParams) (sel : Option String)
    (hl : env.launch = .ok) (hn : env.newPageOk = true) (hv : env.viewportOk = true)
    (h1 : env.navPrimaryOk = false) (h2 : env.navFallbackOk = true) :
    strictHandler env p sel = strictCapture env p sel [strictPrimaryNav, strictFallbackNav] := by
  unfold strictHandler
  rw [hl]
  simp [hn, hv, h1, h2]

theorem strictHandler_nav_bothfail (env : StrictEnv) (p : ValidatedParams) (sel : Option String)
    (hl : env.launch = .ok) (hn : env.newPageOk = true) (hv : env.viewportOk = true)
    (h1 : env.navPrimaryOk = false) (h2 : env.navFallbackOk = false) :
    strictHandler env p sel = (mkErrStrict env.navFallbackErrMsg,
      { launches := 1, acquired := 1, pageCloses := 1, browserCloses := 1,
        interceptionInstalled := true, navAttempts := [strictPrimaryNav, strictFallbackNav],
        selectorReceived := sel, selectorWaited := none }) := by
  unfold strictHandler
  rw [hl]
  simp [hn, hv, h1, h2]

theorem strictCapture_nav (env : StrictEnv) (p : ValidatedParams)
    (sel : Option String) (nav : List NavAttempt) :
    (strictCapture env p sel nav).2.navAttempts = nav := by
  simp only [strictCapture]
  repeat' split
  all_goals rfl

theorem strictCapture_selectorReceived (env : StrictEnv) (p : ValidatedParams)
    (sel : Option String) (nav : List NavAttempt) :
    (strictCapture env p sel nav).2.selectorReceived = sel := by
  simp only [strictCapture]
  repeat' split
  all_goals rfl

theorem strictCapture_selectorWaited (env : StrictEnv) (p : ValidatedParams)
    (s : String) (hs : (s != "") = true) (nav : List NavAttempt) :
    (strictCapture env p (some s) nav).2.selectorWaited = some s := by
  simp only [strictCapture, hs]
  repeat' split
  all_goals simp_all

theorem strictCapture_selector_timeout (env : StrictEnv) (p : ValidatedParams)
    (s : String) (hs : (s != "") = true) (h5 : env.selectorAppears = false)
    (nav : List NavAttempt) :
    (strictCapture env p (some s) nav).1 =
      mkErrStrict (wrapSelectorErr s env.waitSelectorErrMsg) := by
  simp only [strictCapture, hs]
  simp [h5]


theorem strictCapture_elem_missing (env : StrictEnv) (p : ValidatedParams)
    (s : String) (hs : (s != "") = true) (h5 : env.selectorAppears = true)
    (h6 : env.elemAfterWait = false) (nav : List NavAttempt) :
    (strictCapture env p (some s) nav).1 =
      mkErrStrict (wrapSelectorErr s (elemNotFoundMsg s)) := by
  simp only [strictCapture, hs]
  simp [h5, h6]


theorem strictHandler_selectorReceived (env : StrictEnv) (p : ValidatedParams)
    (sel : Option String) :
    (strictHandler env p sel).2.selectorReceived = sel := by
  unfold strictHandler
  repeat' split
  all_goals first
    | rfl
    | apply strictCapture_selectorReceived

theorem permissiveHandler_selectorReceived (env : PermEnv) (q : Query) :
    (permissiveHandler env q).2.selectorReceived = q.selector := by
  simp only [permissiveHandler]
  repeat' split
  all_goals rfl

theorem permissiveHandler_nav_fail (env : PermEnv) (q : Query)
    (hl : env.launchOk = true) (hv : env.viewportOk = true) (hn : env.navOk = false) :
    permissiveHandler env q = (mkErrPerm env.navErrMsg,
      { launches := 1, acquired := 1, pageCloses := 0, browserCloses := 1,
        interceptionInstalled := false, navAttempts := [permNav],
        selectorReceived := q.selector, selectorWaited := none }) := by
  unfold permissiveHandler
  simp [hl, hv, hn]

theorem permissiveHandler_elem_missing (env : PermEnv) (q : Query) (s : String)
    (hq : q.selector = some s) (hs : (s != "") = true)
    (hl : env.launchOk = true) (hv : env.viewportOk = true) (hn : env.navOk = true)
    (he : env.elemFound = false) :
    (permissiveHandler env q).1 = mkErrPerm (elemNotFoundMsg s) := by
  unfold permissiveHandler
  simp [hl, hv, hn, hq, hs, he]

theorem permissiveHandler_acquired (env : PermEnv) (q : Query)
    (hl : env.launchOk = true) :
    (permissiveHandler env q).2.acquired = 1 := by
  simp only [permissiveHandler, hl]
  repeat' split
  all_goals simp_all

/-- Claim C2 (amended): a never-matching selector yields the ElementNotFound
400 only on the strict-profile path where `page.$` returns no handle after a
successful wait, because only there the wrapped message contains `Element`
and `not found`.  On the common strict path — `page.waitForSelector` timing
out with the browser message, which contains neither those tokens nor
`timeout` — the response is a 500, and in the permissive profile a
never-matching selector always yields a 500. -/
theorem C2_amended_selector_errors (env : StrictEnv) (envP : PermEnv) :
    (env.launch = .ok → env.newPageOk = true → env.viewportOk = true →
      env.navPrimaryOk = true → env.selectorAppears = true → env.elemAfterWait = false →
      (strictScreenshotRoute true selQuery env).1 =
        .err 400 (wrapSelectorErr ".does-not-exist" (elemNotFoundMsg ".does-not-exist"))
          (wrapSelectorErr ".does-not-exist" (elemNotFoundMsg ".does-not-exist"))) ∧
    (env.launch = .ok → env.newPageOk = true → env.viewportOk = true →
      env.navPrimaryOk = true → env.selectorAppears = false →
      env.waitSelectorErrMsg =
        "Waiting for selector `.does-not-exist` failed: Waiting failed: 5000ms exceeded" →
      (strictScreenshotRoute true selQuery env).1 =
        .err 500 "Failed to capture screenshot"
          (wrapSelectorErr ".does-not-exist"
            "Waiting for selector `.does-not-exist` failed: Waiting failed: 5000ms exceeded")) ∧
    (envP.launchOk = true → envP.viewportOk = true → envP.navOk = true →
      envP.elemFound = false →
      (permissiveScreenshotRoute selQuery envP).1 =
        .err 500 "Failed to capture screenshot" (elemNotFoundMsg ".does-not-exist")) := by
  refine ⟨fun h1 h2 h3 h4 h5 h6 => ?_, fun h1 h2 h3 h4 h5 h6 => ?_, fun h1 h2 h3 h4 => ?_⟩
  · rw [@strictRoute_validated true selQuery "https://example.com" goodParams env
        (by decide) (by decide),
      strictHandler_nav_primary env goodParams selQuery.selector h1 h2 h3 h4]
    change (strictCapture env goodParams (some ".does-not-exist") [strictPrimaryNav]).1 = _
    rw [strictCapture_elem_missing env goodParams ".does-not-exist" (by decide) h5 h6]
    decide
  · rw [@strictRoute_validated true selQuery "https://example.com" goodParams env
        (by decide) (by decide),
      strictHandler_nav_primary env goodParams selQuery.selector h1 h2 h3 h4]
    change (strictCapture env goodParams (some ".does-not-exist") [strictPrimaryNav]).1 = _
    rw [strictCapture_selector_timeout env goodParams ".does-not-exist" (by decide) h5, h6]
    decide
  · rw [@permissiveRoute_validated selQuery "https://example.com" envP (by decide) (by decide),
      permissiveHandler_elem_missing envP selQuery ".does-not-exist" rfl (by decide) h1 h2 h3 h4]
    decide

/-- Witness for the amended C2 statement at concrete environments. -/
theorem C2_amended_selector_errors_witness :
    (strictScreenshotRoute true selQuery { okStrictEnv with elemAfterWait := false }).1 =
      .err 400 (wrapSelectorErr ".does-not-exist" (elemNotFoundMsg ".does-not-exist"))
        (wrapSelectorErr ".does-not-exist" (elemNotFoundMsg ".does-not-exist")) ∧
    (strictScreenshotRoute true selQuery strictEnvSelectorTimeout).1 =
      .err 500 "Failed to capture screenshot"
        (wrapSelectorErr ".does-not-exist"
          "Waiting for selector `.does-not-exist` failed: Waiting failed: 5000ms exceeded") ∧
    (permissiveScreenshotRoute selQuery permEnvNoElem).1 =
      .err 500 "Failed to capture screenshot" (elemNotFoundMsg ".does-not-exist") :=
  ⟨(C2_amended_selector_errors { okStrictEnv with elemAfterWait := false } permEnvNoElem).1
      rfl rfl rfl rfl rfl rfl,
   (C2_amended_selector_errors strictEnvSelectorTimeout permEnvNoElem).2.1
      rfl rfl rfl rfl rfl rfl,
   (C2_amended_selector_errors okStrictEnv permEnvNoElem).2.2 rfl rfl rfl rfl⟩

/-- Claim C3, counterexample: in the permissive profile the width value
`abc` does not parse as an integer, yet validation passes (every comparison
against `NaN` is false), `getBrowser()` is awaited — a browser session is
acquired — and the request ends in a 500 from the later viewport call, not
in a 400 naming the width. -/
theorem C3_counterexample :
    (permissiveScreenshotRoute badWidthQuery permEnvNaNViewport).2.acquired = 1 ∧
    (permissiveScreenshotRoute badWidthQuery permEnvNaNViewport).1 =
      .err 500 "Failed to capture screenshot"
        "Protocol error (Emulation.setDeviceMetricsOverride): Invalid parameters" := by
  decide

/-- Claim C3 (amended): in the strict profile every width/height/quality/
delay value that fails to parse or parses out of bounds is rejected by the
first failing check with a 400 `Invalid parameters` response naming that
field, and the handler never runs (empty trace, no session).  In the
permissive profile the same holds for values that parse to an out-of-range
integer, but a value that does not parse at all (`NaN`) passes every bound
check and a browser session is acquired. -/
theorem C3_amended_param_validation (q : Query) (u : String)
    (env : StrictEnv) (envP : PermEnv) :
    (validateUrlStrict true q.url = .ok u →
      badBounds (parseIntJS (q.width.getD "1920")) 100 1920 = true →
      strictScreenshotRoute true q env =
        (.err 400 "Invalid parameters" "Width must be between 100 and 1920 pixels",
         emptyTrace)) ∧
    (validateUrlStrict true q.url = .ok u →
      badBounds (parseIntJS (q.width.getD "1920")) 100 1920 = false →
      badBounds (parseIntJS (q.height.getD "1080")) 100 1080 = true →
      strictScreenshotRoute true q env =
        (.err 400 "Invalid parameters" "Height must be between 100 and 1080 pixels",
         emptyTrace)) ∧
    (validateUrlStrict true q.url = .ok u →
      badBounds (parseIntJS (q.width.getD "1920")) 100 1920 = false →
      badBounds (parseIntJS (q.height.getD "1080")) 100 1080 = false →
      validFormats.contains (lowerStr (q.format.getD "png")) = true →
      badBounds (parseIntJS (q.quality.getD "80")) 1 100 = true →
      strictScreenshotRoute true q env =
        (.err 400 "Invalid parameters" "Quality must be between 1 and 100", emptyTrace)) ∧
    (validateUrlStrict true q.url = .ok u →
      badBounds (parseIntJS (q.width.getD "1920")) 100 1920 = false →
      badBounds (parseIntJS (q.height.getD "1080")) 100 1080 = false →
      validFormats.contains (lowerStr (q.format.getD "png")) = true →
      badBounds (parseIntJS (q.quality.getD "80")) 1 100 = false →
      badBounds (parseIntJS (q.delay.getD "0")) 0 5000 = true →
      strictScreenshotRoute true q env =
        (.err 400 "Invalid parameters" "Delay must be between 0 and 5000 milliseconds",
         emptyTrace)) ∧
    (validateUrlPermissive q.url = .ok u →
      (jsLt (parseIntJS (q.width.getD "1920")) 100 ||
       jsGt (parseIntJS (q.width.getD "1920")) 3840) = true →
      permissiveScreenshotRoute q envP =
        (.err 400 "Width must be between 100 and 3840 pixels" "", emptyTrace)) ∧
    (envP.launchOk = true →
      (permissiveScreenshotRoute badWidthQuery envP).2.acquired = 1) := by
  refine ⟨fun hu hw => strictRoute_param_error env hu (validateParamsStrict_width_error hw),
    fun hu hw hh => strictRoute_param_error env hu (validateParamsStrict_height_error hw hh),
    fun hu hw hh hf hq =>
      strictRoute_param_error env hu (validateParamsStrict_quality_error hw hh hf hq),
    fun hu hw hh hf hq hd =>
      strictRoute_param_error env hu (validateParamsStrict_delay_error hw hh hf hq hd),
    fun hu hw => permissiveRoute_param_error envP hu (permissiveParamError_width hw),
    fun hl => ?_⟩
  rw [@permissiveRoute_validated badWidthQuery "https://example.com" envP (by decide) (by decide)]
  exact permissiveHandler_acquired envP badWidthQuery hl

/-- Witness for the amended C3 statement at concrete requests. -/
theorem C3_amended_param_validation_witness :
    strictScreenshotRoute true badWidthQuery okStrictEnv =
      (.err 400 "Invalid parameters" "Width must be between 100 and 1920 pixels",
       emptyTrace) ∧
    strictScreenshotRoute true { goodQuery with height := some "2000" } okStrictEnv =
      (.err 400 "Invalid parameters" "Height must be between 100 and 1080 pixels",
       emptyTrace) ∧
    strictScreenshotRoute true { goodQuery with quality := some "0" } okStrictEnv =
      (.err 400 "Invalid parameters" "Quality must be between 1 and 100", emptyTrace) ∧
    strictScreenshotRoute true { goodQuery with delay := some "5001" } okStrictEnv =
      (.err 400 "Invalid parameters" "Delay must be between 0 and 5000 milliseconds",
       emptyTrace) ∧
    permissiveScreenshotRoute { goodQuery with width := some "50" } okPermEnv =
      (.err 400 "Width must be between 100 and 3840 pixels" "", emptyTrace) ∧
    (permissiveScreenshotRoute badWidthQuery permEnvNaNViewport).2.acquired = 1 :=
  ⟨(C3_amended_param_validation badWidthQuery "https://example.com" okStrictEnv okPermEnv).1
      (by decide) (by decide),
   (C3_amended_param_validation { goodQuery with height := some "2000" } "https://example.com"
      okStrictEnv okPermEnv).2.1 (by decide) (by decide) (by decide),
   (C3_amended_param_validation { goodQuery with quality := some "0" } "https://example.com"
      okStrictEnv okPermEnv).2.2.1 (by decide) (by decide) (by decide) (by decide) (by decide),
   (C3_amended_param_validation { goodQuery with delay := some "5001" } "https://example.com"
      okStrictEnv okPermEnv).2.2.2.1 (by decide) (by decide) (by decide) (by decide) (by decide)
      (by decide),
   (C3_amended_param_validation { goodQuery with width := some "50" } "https://example.com"
      okStrictEnv okPermEnv).2.2.2.2.1 (by decide) (by decide),
   (C3_amended_param_validation goodQuery "https://example.com" okStrictEnv
      permEnvNaNViewport).2.2.2.2.2 rfl⟩

/-- Claim C6, counterexample: in the permissive profile a failing
navigation performs exactly one `page.goto`, waiting only for
near-network-idle with a 30s timeout — there is no primary attempt waiting
for DOM-content-loaded and no fallback attempt — and the failure of that
single attempt is what propagates. -/
theorem C6_counterexample :
    (permissiveScreenshotRoute goodQuery permEnvNavFail).2.navAttempts =
      [{ waitUntil := ["networkidle2"], timeoutMs := 30000 }] ∧
    (permissiveScreenshotRoute goodQuery permEnvNavFail).1 =
      .err 500 "Failed to capture screenshot"
        "net::ERR_CONNECTION_REFUSED at https://example.com" := by
  decide

/-- Claim C6 (amended): in the strict profile navigation behaves as
claimed — a primary `goto` waiting for DOM-content-loaded and
near-network-idle within 15s; exactly one fallback waiting only for
DOM-content-loaded within 10s if and only if the primary fails; and when
both fail the fallback error is the one classified and echoed.  In the
permissive profile a single `goto` waits only for near-network-idle within
30s, and its failure propagates with no fallback. -/
theorem C6_amended_navigation (q : Query) (u : String) (p : ValidatedParams)
    (env : StrictEnv) (envP : PermEnv)
    (hu : validateUrlStrict true q.url = .ok u)
    (hp : validateParamsStrict q = .ok p)
    (hl : env.launch = .ok) (hn : env.newPageOk = true) (hv : env.viewportOk = true) :
    (env.navPrimaryOk = true →
      (strictScreenshotRoute true q env).2.navAttempts = [strictPrimaryNav]) ∧
    (env.navPrimaryOk = false → env.navFallbackOk = true →
      (strictScreenshotRoute true q env).2.navAttempts =
        [strictPrimaryNav, strictFallbackNav]) ∧
    (env.navPrimaryOk = false → env.navFallbackOk = false →
      (strictScreenshotRoute true q env).2.navAttempts =
        [strictPrimaryNav, strictFallbackNav] ∧
      (strictScreenshotRoute true q env).1 = mkErrStrict env.navFallbackErrMsg) ∧
    (validateUrlPermissive q.url = .ok u → permissiveParamError q = none →
      envP.launchOk = true → envP.viewportOk = true → envP.navOk = false →
      (permissiveScreenshotRoute q envP).2.navAttempts = [permNav] ∧
      (permissiveScreenshotRoute q envP).1 = mkErrPerm envP.navErrMsg) := by
  refine ⟨fun h1 => ?_, fun h1 h2 => ?_, fun h1 h2 => ?_, fun huP hperr hlP hvP hnoP => ?_⟩
  · rw [strictRoute_validated env hu hp,
      strictHandler_nav_primary env p q.selector hl hn hv h1]
    exact strictCapture_nav env p q.selector [strictPrimaryNav]
  · rw [strictRoute_validated env hu hp,
      strictHandler_nav_fallback env p q.selector hl hn hv h1 h2]
    exact strictCapture_nav env p q.selector [strictPrimaryNav, strictFallbackNav]
  · rw [strictRoute_validated env hu hp,
      strictHandler_nav_bothfail env p q.selector hl hn hv h1 h2]
    exact ⟨rfl, rfl⟩
  · rw [permissiveRoute_validated envP huP hperr,
      permissiveHandler_nav_fail envP q hlP hvP hnoP]
    exact ⟨rfl, rfl⟩

/-- Witness for the amended C6 statement at a concrete request. -/
theorem C6_amended_navigation_witness :
    (strictScreenshotRoute true goodQuery
        { okStrictEnv with navPrimaryOk := false, navFallbackOk := false }).2.navAttempts =
      [strictPrimaryNav, strictFallbackNav] ∧
    (strictScreenshotRoute true goodQuery
        { okStrictEnv with navPrimaryOk := false, navFallbackOk := false }).1 =
      mkErrStrict "Navigation timeout of 10000 ms exceeded" ∧
    (permissiveScreenshotRoute goodQuery permEnvNavFail).2.navAttempts = [permNav] :=
  ⟨((C6_amended_navigation goodQuery "https://example.com" goodParams
      { okStrictEnv with navPrimaryOk := false, navFallbackOk := false } permEnvNavFail
      (by decide) (by decide) rfl rfl rfl).2.2.1 rfl rfl).1,
   ((C6_amended_navigation goodQuery "https://example.com" goodParams
      { okStrictEnv with navPrimaryOk := false, navFallbackOk := false } permEnvNavFail
      (by decide) (by decide) rfl rfl rfl).2.2.1 rfl rfl).2,
   ((C6_amended_navigation goodQuery "https://example.com" goodParams okStrictEnv permEnvNavFail
      (by decide) (by decide) rfl rfl rfl).2.2.2 (by decide) (by decide) rfl rfl rfl).1⟩

/-- Claim C9: the selector query key bypasses both validators entirely.
Neither the strict parameter validator, the permissive inline checks, nor
either URL validator reads the selector; the handlers receive the raw query
value unchanged, and any non-empty selector string is passed verbatim to
`page.waitForSelector` in the strict capture stage. -/
theorem C9_selector_bypasses_validation :
    (∀ (q : Query) (s : Option String),
      validateParamsStrict { q with selector := s } = validateParamsStrict q ∧
      permissiveParamError { q with selector := s } = permissiveParamError q ∧
      validateUrlStrict true ({ q with selector := s } : Query).url =
        validateUrlStrict true q.url ∧
      validateUrlPermissive ({ q with selector := s } : Query).url =
        validateUrlPermissive q.url) ∧
    (∀ (env : StrictEnv) (p : ValidatedParams) (sel : Option String),
      (strictHandler env p sel).2.selectorReceived = sel) ∧
    (∀ (env : PermEnv) (q : Query),
      (permissiveHandler env q).2.selectorReceived = q.selector) ∧
    (∀ (env : StrictEnv) (p : ValidatedParams) (s : String),
      (s != "") = true → env.launch = .ok → env.newPageOk = true →
      env.viewportOk = true → env.navPrimaryOk = true →
      (strictHandler env p (some s)).2.selectorWaited = some s) := by
  refine ⟨fun q s => ?_, strictHandler_selectorReceived,
    permissiveHandler_selectorReceived, fun env p s hs hl hn hv h1 => ?_⟩
  · cases q
    exact ⟨rfl, rfl, rfl, rfl⟩
  · rw [strictHandler_nav_primary env p (some s) hl hn hv h1]
    exact strictCapture_selectorWaited env p s hs [strictPrimaryNav]

/-- Witness for C9 at a concrete unvalidated selector string. -/
theorem C9_selector_bypasses_validation_witness :
    validateParamsStrict { goodQuery with selector := some "<<not a selector ]] (" } =
      validateParamsStrict goodQuery ∧
    (strictHandler okStrictEnv goodParams (some "<<not a selector ]] (")).2.selectorWaited =
      some "<<not a selector ]] (" :=
  ⟨(C9_selector_bypasses_validation.1 goodQuery (some "<<not a selector ]] (")).1,
   C9_selector_bypasses_validation.2.2.2 okStrictEnv goodParams "<<not a selector ]] ("
     (by decide) rfl rfl rfl rfl⟩

/-- Claim C10, counterexample: the delay token `0x10` has the in-range
leading digit `0` followed by the non-digit text `x10`, so the claim says
validation proceeds with the truncated integer value 0.  Instead
`parseInt` reads the `0x` prefix as a radix switch: the token parses to 16,
and strict validation succeeds with delay 16, not 0. -/
theorem C10_counterexample :
    parseIntJS "0x10" = some 16 ∧
    parseIntJS "0" = some 0 ∧
    validateParamsStrict { goodQuery with delay := some "0x10" } =
      .ok { goodParams with delay := 16 } ∧
    validateParamsStrict { goodQuery with delay := some "0x10" } ≠
      .ok { goodParams with delay := 0 } := by
  decide

/-- Claim C10 (amended): numeric validation is prefix parsing, except for
the hex corner of `parseInt`.  Appending non-digit text to a digit token
does not change `parseIntJS` unless the digit prefix is the bare `0` and
the appended text starts with `x`/`X` — there `parseInt` switches to
hexadecimal instead of truncating (first conjunct, whose last hypothesis
carries exactly that caveat); both validators read the four numeric fields
only through `parseIntJS`, so such tokens validate identically to their
digit prefixes; and concretely `500.9` parses to 500 while a request with
width `800px` passes validation and is captured at width 800 in both
profiles. -/
theorem C10_prefix_parsing :
    (∀ ds rest : List Char, ds ≠ [] →
      ds.all (fun c => (digitVal10 c).isSome) = true →
      headNotDigit rest = true →
      (ds = ['0'] → headNotHexMark rest = true) →
      parseIntJS (String.mk (ds ++ rest)) = parseIntJS (String.mk ds)) ∧
    (∀ (q : Query) (s1 s2 : String), parseIntJS s1 = parseIntJS s2 →
      validateParamsStrict { q with width := some s1 } =
        validateParamsStrict { q with width := some s2 } ∧
      validateParamsStrict { q with height := some s1 } =
        validateParamsStrict { q with height := some s2 } ∧
      validateParamsStrict { q with quality := some s1 } =
        validateParamsStrict { q with quality := some s2 } ∧
      validateParamsStrict { q with delay := some s1 } =
        validateParamsStrict { q with delay := some s2 } ∧
      permissiveParamError { q with width := some s1 } =
        permissiveParamError { q with width := some s2 } ∧
      permissiveParamError { q with height := some s1 } =
        permissiveParamError { q with height := some s2 } ∧
      permissiveParamError { q with quality := some s1 } =
        permissiveParamError { q with quality := some s2 } ∧
      permissiveParamError { q with delay := some s1 } =
        permissiveParamError { q with delay := some s2 }) ∧
    parseIntJS "500.9" = some 500 ∧
    parseIntJS "800px" = some 800 ∧
    validateParamsStrict { goodQuery with width := some "800px" } =
      .ok { goodParams with width := 800 } ∧
    (strictScreenshotRoute true { goodQuery with width := some "800px" } okStrictEnv).1 =
      .image "png" (some 800) (some 1080)
        (screenshotOptionsStrict { goodParams with width := 800 }) ∧
    (strictScreenshotRoute true { goodQuery with width := some "800px" }
        okStrictEnv).2.acquired = 1 ∧
    (permissiveScreenshotRoute { goodQuery with width := some "800px" } okPermEnv).1 =
      .image "png" (some 800) (some 1080)
        { type := "png", fullPage := false, omitBackground := none,
          captureBeyondViewport := none, quality := none } := by
  refine ⟨parseIntJS_append_junk, fun q s1 s2 h => ?_,
    by decide, by decide, by decide, by decide, by decide, by decide⟩
  exact ⟨validateParamsStrict_parse_congr _ _ h rfl rfl rfl rfl rfl rfl rfl,
    validateParamsStrict_parse_congr _ _ rfl h rfl rfl rfl rfl rfl rfl,
    validateParamsStrict_parse_congr _ _ rfl rfl h rfl rfl rfl rfl rfl,
    validateParamsStrict_parse_congr _ _ rfl rfl rfl h rfl rfl rfl rfl,
    permissiveParamError_parse_congr _ _ h rfl rfl rfl rfl,
    permissiveParamError_parse_congr _ _ rfl h rfl rfl rfl,
    permissiveParamError_parse_congr _ _ rfl rfl h rfl rfl,
    permissiveParamError_parse_congr _ _ rfl rfl rfl h rfl⟩

/-- Witness for C10 at concrete tokens. -/
theorem C10_prefix_parsing_witness :
    parseIntJS (String.mk (['8', '0', '0'] ++ ['p', 'x'])) =
      parseIntJS (String.mk ['8', '0', '0']) ∧
    validateParamsStrict { goodQuery with delay := some "70ms" } =
      validateParamsStrict { goodQuery with delay := some "70" } :=
  ⟨C10_prefix_parsing.1 ['8', '0', '0'] ['p', 'x'] (by decide) (by decide) (by decide)
      (by decide),
   (C10_prefix_parsing.2.1 goodQuery "70ms" "70" (by decide)).2.2.2.1⟩
